import Mathlib

/-!
Verification of the Equaddle-law pipeline (src/qiskit.py).

The source is a straight-line script with two algorithmic parts:

* a register state composer: module-level width constants
  (PHASE_QUBITS, EXISTENCE_QUBITS, RESOURCE_QUBITS, TPP_VALUE_QUBITS, all 2
  in the source), derived start offsets (P_START, E_START, R_START, V_START),
  and a fixed ordered sequence of gate applications on the circuit `qc`
  (lines 41-112);
* a footprint accountability evaluator, `check_accountability_footprint`
  (lines 133-151): max count over the table, sum of counts, ratio compared
  against the literal threshold 0.15.

Embedding choices:
* the module width constants become explicit parameters of the composer,
  so that statements quantifying over width configurations are expressible;
  the source's configuration is widths (2,2,2,2);
* rotation angles (PHI * pi, MASS_CONSTANT, pi / sqrt 5, PNEUMATIC_DENSITY)
  are opaque to every property verified here, so the operation list is
  generic in an angle type `A` and the four distinct angle expressions of
  the source are passed as parameters; this keeps every definition
  computable;
* Python's float division `max_count / total_shots` is modelled as exact
  division in `Rat`; Python's implicit exceptions are modelled explicitly:
  `max()` over an empty sequence raises ValueError, and an integer/zero
  division raises ZeroDivisionError (`Rat` division by zero would silently
  give 0, so the zero branch is tested exactly where Python would raise).
-/

namespace Equaddle

/-! ## Footprint accountability evaluator (src/qiskit.py lines 133-151) -/

/-- Errors Python can raise inside `check_accountability_footprint`:
`max()` of an empty sequence (ValueError), and division by a zero
`total_shots` (ZeroDivisionError). -/
inductive PyErr
  | valueErrorEmptyMax
  | zeroDivisionError
deriving DecidableEq

/-- Classification outcome: the FLUX DETECTED branch (high footprint,
concentrated) versus the ABSOLUTE branch (low footprint, fragmented). -/
inductive Footprint
  | CONCENTRATED
  | FRAGMENTED
deriving DecidableEq

/-- Result of a successful footprint check: the ratio, the dominant count,
the total, and which branch was taken. -/
structure FootprintResult where
  ratioVal : Rat
  maxCount : Int
  totalShots : Int
  classification : Footprint
deriving DecidableEq

/-- Python's `max` over a list of integers: none on the empty list
(where Python raises ValueError), otherwise the greatest element. -/
def pymax : List Int → Option Int
  | [] => none
  | x :: xs => some (xs.foldl max x)

/-- `sum(counts.values())`: the sum of all counts in the table. -/
def sumCounts (counts : List (String × Int)) : Int :=
  (counts.map Prod.snd).sum

/-- Embedding of `check_accountability_footprint` (lines 133-151): a
frequency table is a list of (bitstring, count) pairs; `max_count` is
computed first (line 138), then `total_shots` (line 139), then the ratio
`max_count / total_shots` is compared against the literal threshold 0.15
(line 142).  The function has no validation of its own: an empty table
fails inside `max`, and a zero total fails at the division itself. -/
def check_accountability_footprint (counts : List (String × Int)) :
    Except PyErr FootprintResult :=
  match pymax (counts.map Prod.snd) with
  | none => .error .valueErrorEmptyMax
  | some max_count =>
    let total_shots : Int := sumCounts counts
    if total_shots = 0 then .error .zeroDivisionError
    else
      let r : Rat := (max_count : Rat) / (total_shots : Rat)
      .ok { ratioVal := r
            maxCount := max_count
            totalShots := total_shots
            classification :=
              if r > 15 / 100 then .CONCENTRATED else .FRAGMENTED }

/-! ## Register layout (src/qiskit.py lines 17-29)

The source fixes PHASE_QUBITS = EXISTENCE_QUBITS = RESOURCE_QUBITS =
TPP_VALUE_QUBITS = 2; the widths appear here as parameters `pq eq rq vq`
standing for those four module constants. -/

/-- Source reference width of the Phase register (line 18). -/
def PHASE_QUBITS : Nat := 2

/-- Source reference width of the Existence register (line 19). -/
def EXISTENCE_QUBITS : Nat := 2

/-- Source reference width of the Resource register (line 20). -/
def RESOURCE_QUBITS : Nat := 2

/-- Source reference width of the Value register (line 21). -/
def TPP_VALUE_QUBITS : Nat := 2

/-- `TOTAL_QUBITS` (line 23): sum of the four register widths. -/
def TOTAL_QUBITS (pq eq rq vq : Nat) : Nat := pq + eq + rq + vq

/-- `P_START = 0` (line 26). -/
def P_START : Nat := 0

/-- `E_START = P_START + PHASE_QUBITS` (line 27). -/
def E_START (pq : Nat) : Nat := P_START + pq

/-- `R_START = E_START + EXISTENCE_QUBITS` (line 28). -/
def R_START (pq eq : Nat) : Nat := E_START pq + eq

/-- `V_START = R_START + RESOURCE_QUBITS` (line 29). -/
def V_START (pq eq rq : Nat) : Nat := R_START pq eq + rq

/-! ## Operation records -/

/-- One operation of the emitted sequence, generic in the angle type `A`:
Hadamard, basis flip, controlled flip, phase rotation, controlled-Z
rotation, X- and Z-axis rotations, the controlled swap, and barriers
(with their optional label). -/
inductive Op (A : Type)
  | h (q : Nat)
  | x (q : Nat)
  | cx (control target : Nat)
  | p (angle : A) (q : Nat)
  | crz (angle : A) (control target : Nat)
  | rx (angle : A) (q : Nat)
  | rz (angle : A) (q : Nat)
  | cswap (control ta tb : Nat)
  | barrier (label : Option String)
deriving DecidableEq

variable {A : Type}

/-- Ordered operation sequence the script applies to `qc`
(src/qiskit.py lines 41-112), with the calls to
`birth_proclamation_circuit(qc, 1)` and `apply_trade_barter(qc)` inlined
at their call sites (lines 96 and 112).  The four angle parameters stand
for the source expressions `PHI * np.pi` (lines 60-61), `MASS_CONSTANT`
(line 65), `np.pi / np.sqrt(5)` (lines 86-87) and `PNEUMATIC_DENSITY`
(line 91).  `qc.h(range(P_START, E_START))` is the `pq` Hadamards on
indices `P_START, ..., E_START - 1`. -/
def qc_ops (pq eq rq vq : Nat) (phiAngle mcAngle noMeadAngle densityAngle : A) :
    List (Op A) :=
  ((List.range' P_START pq).map Op.h) ++
  [Op.barrier (some "P_Infinite_Phases"),
   Op.cx P_START (E_START pq),
   Op.cx (P_START + 1) (E_START pq + 1),
   Op.barrier (some "E_Existence_Entanglement"),
   Op.cx (E_START pq) (R_START pq eq),
   Op.cx (E_START pq + 1) (R_START pq eq + 1),
   Op.barrier (some "R_Equaddle_Enforcement"),
   Op.p phiAngle (R_START pq eq),
   Op.p phiAngle (R_START pq eq + 1),
   Op.crz mcAngle (E_START pq) (R_START pq eq),
   Op.barrier (some "Hyperdimensional_Energy_Layer"),
   Op.x (V_START pq eq rq + 1),
   Op.barrier (some "V_TPP_Proclamation_1"),
   Op.cx (E_START pq) (V_START pq eq rq),
   Op.cx (E_START pq + 1) (V_START pq eq rq + 1),
   Op.rx noMeadAngle (V_START pq eq rq),
   Op.rz densityAngle (V_START pq eq rq + 1),
   Op.barrier none,
   Op.cswap (V_START pq eq rq) (R_START pq eq) (R_START pq eq + 1),
   Op.barrier (some "R_Value_Exchange_Final")]

/-- Whether an operation is a barrier marker. -/
def isBarrier : Op A → Bool
  | .h _ => false
  | .x _ => false
  | .cx _ _ => false
  | .p _ _ => false
  | .crz _ _ _ => false
  | .rx _ _ => false
  | .rz _ _ => false
  | .cswap _ _ _ => false
  | .barrier _ => true

/-- Number of barrier markers in an operation sequence. -/
def countBarriers (l : List (Op A)) : Nat := (l.filter isBarrier).length

/-- Bit indices an operation references (a barrier references none). -/
def opIndices : Op A → List Nat
  | .h q => [q]
  | .x q => [q]
  | .cx c t => [c, t]
  | .p _ q => [q]
  | .crz _ c t => [c, t]
  | .rx _ q => [q]
  | .rz _ q => [q]
  | .cswap c ta tb => [c, ta, tb]
  | .barrier _ => []

/-- Whether every bit index referenced by the sequence is below `n`. -/
def allIndicesLt (l : List (Op A)) (n : Nat) : Bool :=
  l.all (fun op => (opIndices op).all (fun i => i < n))

/-- The controlled-Z-rotation couplings of a sequence, as
(angle, control, target) triples, in order. -/
def crzOf : Op A → Option (A × Nat × Nat)
  | .h _ => none
  | .x _ => none
  | .cx _ _ => none
  | .p _ _ => none
  | .crz a c t => some (a, c, t)
  | .rx _ _ => none
  | .rz _ _ => none
  | .cswap _ _ _ => none
  | .barrier _ => none

/-- All controlled-phase-rotation couplings of a sequence, in order. -/
def crzOps (l : List (Op A)) : List (A × Nat × Nat) := l.filterMap crzOf

/-! ## Helper lemmas -/

/-- The running maximum of a fold belongs to the folded list together with
its seed. -/
lemma foldl_max_mem (xs : List Int) (x : Int) : xs.foldl max x ∈ x :: xs := by
  induction xs generalizing x with
  | nil => simp
  | cons y ys ih =>
    rw [List.foldl_cons]
    rcases List.mem_cons.mp (ih (max x y)) with hmem | hmem
    · rcases max_choice x y with hc | hc <;> rw [hmem, hc] <;> simp
    · simp [List.mem_cons.mpr (Or.inr (List.mem_cons.mpr (Or.inr hmem)))]

/-- Every element of the seed-plus-list is bounded by the folded maximum. -/
lemma le_foldl_max (xs : List Int) (x : Int) :
    ∀ y ∈ x :: xs, y ≤ xs.foldl max x := by
  induction xs generalizing x with
  | nil => intro y hy; rw [List.mem_singleton] at hy; simp [hy]
  | cons z zs ih =>
    intro y hy
    rw [List.foldl_cons]
    rcases List.mem_cons.mp hy with rfl | hy
    · exact le_trans (le_max_left y z) (ih (max y z) _ (List.mem_cons_self _ _))
    · rcases List.mem_cons.mp hy with rfl | hy
      · exact le_trans (le_max_right x y) (ih (max x y) _ (List.mem_cons_self _ _))
      · exact ih (max x z) _ (List.mem_cons.mpr (Or.inr hy))

/-- `pymax` depends only on the multiset of its input: permuted lists have
the same maximum. -/
lemma pymax_perm {l₁ l₂ : List Int} (hp : l₁.Perm l₂) : pymax l₁ = pymax l₂ := by
  cases l₁ with
  | nil =>
    have : l₂ = [] := List.Perm.nil_eq hp |>.symm
    rw [this]
  | cons x xs =>
    cases l₂ with
    | nil => exact absurd (List.Perm.nil_eq hp.symm) (by simp)
    | cons y ys =>
      have h₁ : xs.foldl max x ≤ ys.foldl max y :=
        le_foldl_max ys y _ (hp.subset (foldl_max_mem xs x))
      have h₂ : ys.foldl max y ≤ xs.foldl max x :=
        le_foldl_max xs x _ (hp.symm.subset (foldl_max_mem ys y))
      simp [pymax, le_antisymm h₁ h₂]

/-! ## Claim theorems: the footprint accountability evaluator -/

/-- Claim C1 (confirmed): on a non-empty frequency table with positive
total, the evaluator computes `ratio = max count / total count` and takes
the CONCENTRATED branch exactly when the ratio strictly exceeds the
threshold 0.15; a ratio equal to the threshold lands in FRAGMENTED. -/
theorem evaluator_concentration_rule (counts : List (String × Int)) (m : Int)
    (hmax : pymax (counts.map Prod.snd) = some m)
    (hpos : 0 < sumCounts counts) :
    ∃ res, check_accountability_footprint counts = .ok res ∧
      res.ratioVal = (m : Rat) / (sumCounts counts : Rat) ∧
      res.maxCount = m ∧
      res.totalShots = sumCounts counts ∧
      (res.classification = .CONCENTRATED ↔
        (m : Rat) / (sumCounts counts : Rat) > 15 / 100) ∧
      ((m : Rat) / (sumCounts counts : Rat) = 15 / 100 →
        res.classification = .FRAGMENTED) := by
  have hz : sumCounts counts ≠ 0 := ne_of_gt hpos
  refine ⟨{ ratioVal := (m : Rat) / (sumCounts counts : Rat),
            maxCount := m,
            totalShots := sumCounts counts,
            classification := if (m : Rat) / (sumCounts counts : Rat) > 15 / 100
              then .CONCENTRATED else .FRAGMENTED }, ?_, rfl, rfl, rfl, ?_, ?_⟩
  · unfold check_accountability_footprint
    rw [hmax]
    simp [hz]
  · by_cases h : (m : Rat) / (sumCounts counts : Rat) > 15 / 100 <;> simp [h]
  · intro he
    rw [if_neg]
    rw [he]
    exact lt_irrefl _

/-- Closed instance of claim C1 at the spec's example table, discharging
both hypotheses at the table with the single entry ("00", 1024). -/
theorem evaluator_concentration_rule_witness :
    pymax ([(("00" : String), (1024 : Int))].map Prod.snd) = some 1024 ∧
    0 < sumCounts [("00", 1024)] ∧
    ∃ res, check_accountability_footprint [("00", 1024)] = .ok res ∧
      res.ratioVal = ((1024 : Int) : Rat) / ((sumCounts [("00", 1024)] : Int) : Rat) ∧
      res.maxCount = 1024 ∧
      res.totalShots = sumCounts [("00", 1024)] ∧
      (res.classification = .CONCENTRATED ↔
        ((1024 : Int) : Rat) / ((sumCounts [("00", 1024)] : Int) : Rat) > 15 / 100) ∧
      (((1024 : Int) : Rat) / ((sumCounts [("00", 1024)] : Int) : Rat) = 15 / 100 →
        res.classification = .FRAGMENTED) :=
  ⟨by decide, by decide,
    evaluator_concentration_rule [("00", 1024)] 1024 (by decide) (by decide)⟩

/-- Counterexample to claim C2: the table with the single entry
("00", -1) is not rejected; the evaluator computes max = -1, total = -1,
ratio = 1 and classifies it CONCENTRATED.  No negative-count check exists
anywhere in `check_accountability_footprint`. -/
theorem evaluator_negative_count_classified :
    check_accountability_footprint [("00", -1)] =
      .ok { ratioVal := 1, maxCount := -1, totalShots := -1,
            classification := .CONCENTRATED } := by
  simp only [check_accountability_footprint, pymax, sumCounts, List.map,
    List.foldl, List.sum_cons, List.sum_nil]
  norm_num

/-- Claim C2 as amended: the evaluator performs no negative-count check;
a table containing a negative count whose total is non-zero is processed
normally and yields a classification instead of failing. -/
theorem evaluator_no_negative_count_check (counts : List (String × Int))
    (hneg : ∃ q ∈ counts, q.2 < 0) (hnz : sumCounts counts ≠ 0) :
    ∃ res, check_accountability_footprint counts = .ok res := by
  obtain ⟨q, hq, -⟩ := hneg
  cases counts with
  | nil => cases hq
  | cons p ps =>
    unfold check_accountability_footprint
    simp only [List.map_cons, pymax]
    rw [if_neg hnz]
    exact ⟨_, rfl⟩

/-- Closed instance of the amended claim C2 at the spec's example table
("00", -1). -/
theorem evaluator_no_negative_count_check_witness :
    (∃ q ∈ [(("00" : String), (-1 : Int))], q.2 < 0) ∧
    sumCounts [("00", -1)] ≠ 0 ∧
    ∃ res, check_accountability_footprint [("00", -1)] = .ok res :=
  ⟨by decide, by decide,
    evaluator_no_negative_count_check [("00", -1)] (by decide) (by decide)⟩

/-- Counterexample to claim C3: the two failure situations do not share
one EmptyDistribution-style error raised before any division.  The empty
table fails inside `max()` (a ValueError), while the non-empty zero-total
table ("00", 0) reaches the ratio expression and fails at the division by
zero itself, a distinct error. -/
theorem evaluator_zero_total_divides :
    check_accountability_footprint [] = .error .valueErrorEmptyMax ∧
    check_accountability_footprint [("00", 0)] = .error .zeroDivisionError ∧
    PyErr.zeroDivisionError ≠ PyErr.valueErrorEmptyMax :=
  ⟨rfl, rfl, by decide⟩

/-- Claim C3 as amended: the evaluator fails exactly on the empty table or
on a zero total, and in no other situation — but through two different
mechanisms: the empty table fails before any division (ValueError inside
`max()`), while a non-empty table with zero total fails at the ratio
division itself (ZeroDivisionError). -/
theorem evaluator_failure_conditions (counts : List (String × Int)) :
    (check_accountability_footprint counts = .error .valueErrorEmptyMax ↔
      counts = []) ∧
    (check_accountability_footprint counts = .error .zeroDivisionError ↔
      counts ≠ [] ∧ sumCounts counts = 0) := by
  cases counts with
  | nil =>
    constructor
    · simp [check_accountability_footprint, pymax]
    · simp [check_accountability_footprint, pymax]
  | cons p ps =>
    unfold check_accountability_footprint
    simp only [List.map_cons, pymax]
    by_cases h : sumCounts (p :: ps) = 0
    · rw [if_pos h]
      constructor
      · simp
      · simp [h]
    · rw [if_neg h]
      constructor
      · simp
      · simp [h]

/-- Claim C10 (confirmed): the evaluator's whole result depends only on
the multiset of counts; renaming keys or permuting entries (anything
preserving the multiset of count values) leaves it unchanged. -/
theorem evaluator_counts_multiset_only (c₁ c₂ : List (String × Int))
    (hne : c₁ ≠ []) (hpos : 0 < sumCounts c₁)
    (hperm : (c₁.map Prod.snd).Perm (c₂.map Prod.snd)) :
    check_accountability_footprint c₁ = check_accountability_footprint c₂ := by
  have hmax := pymax_perm hperm
  have hsum : sumCounts c₁ = sumCounts c₂ := hperm.sum_eq
  unfold check_accountability_footprint
  rw [hmax, hsum]

/-- Closed instance of claim C10: renaming the keys of the spec's
two-entry example table (and swapping the entries) leaves the evaluator's
output unchanged. -/
theorem evaluator_counts_multiset_only_witness :
    [(("00" : String), (512 : Int)), ("01", 512)] ≠ [] ∧
    0 < sumCounts [("00", 512), ("01", 512)] ∧
    ([(("00" : String), (512 : Int)), ("01", 512)].map Prod.snd).Perm
      ([(("11" : String), (512 : Int)), ("10", 512)].map Prod.snd) ∧
    check_accountability_footprint [("00", 512), ("01", 512)] =
      check_accountability_footprint [("11", 512), ("10", 512)] :=
  ⟨by decide, by decide, by decide,
    evaluator_counts_multiset_only _ _ (by decide) (by decide) (by decide)⟩

/-! ## Claim theorems: the register state composer -/

/-- A block of Hadamard gates contains no barrier. -/
lemma filter_isBarrier_map_h (l : List Nat) :
    ((l.map (Op.h (A := A))).filter isBarrier) = [] := by
  induction l with
  | nil => rfl
  | cons a t ih => simp [List.filter_cons, isBarrier, ih]

/-- A block of Hadamard gates contains no controlled-phase rotation. -/
lemma crzOf_filterMap_map_h (l : List Nat) :
    (l.map (Op.h (A := A))).filterMap crzOf = [] := by
  induction l with
  | nil => rfl
  | cons a t ih => simp_all [List.filterMap_cons, crzOf]

/-- Counterexample to claim C4: at the widths (2,2,3,2) of the spec's
example — Existence width 2 against Resource width 3 — the composer does
not fail: there is no width validation and no InvalidRegisterLayout error
anywhere in the script, and the full 22-operation sequence below is
produced. -/
theorem composer_accepts_mismatched_widths :
    qc_ops 2 2 3 2 () () () () =
      [Op.h 0, Op.h 1,
       Op.barrier (some "P_Infinite_Phases"),
       Op.cx 0 2, Op.cx 1 3,
       Op.barrier (some "E_Existence_Entanglement"),
       Op.cx 2 4, Op.cx 3 5,
       Op.barrier (some "R_Equaddle_Enforcement"),
       Op.p () 4, Op.p () 5,
       Op.crz () 2 4,
       Op.barrier (some "Hyperdimensional_Energy_Layer"),
       Op.x 8,
       Op.barrier (some "V_TPP_Proclamation_1"),
       Op.cx 2 7, Op.cx 3 8,
       Op.rx () 7, Op.rz () 8,
       Op.barrier none,
       Op.cswap 7 4 5,
       Op.barrier (some "R_Value_Exchange_Final")] := by decide

/-- Claim C4 as amended: the composer performs no validation of the
register widths whatsoever — for every width configuration, including
zero widths and mismatched widths such as (2,2,3,2), it produces an
operation sequence (of pq + 20 operations) rather than failing. -/
theorem composer_never_rejects_widths (pq eq rq vq : Nat)
    (phiAngle mcAngle noMeadAngle densityAngle : A) :
    (qc_ops pq eq rq vq phiAngle mcAngle noMeadAngle densityAngle).length =
      pq + 20 := by
  simp [qc_ops]

/-- Counterexample to claim C5: at the source widths (2,2,2,2) the
sequence has 7 barriers, but they are not one-per-stage in the claimed
stage order.  The operation following the two golden-ratio rotations
(positions 9 and 10) is the energy coupling (position 11), not a barrier
— the golden-ratio stage and the energy coupling share a single barrier —
while the Value proclamation block carries two barriers, one in its
middle, right after the initial basis flip at position 13 and before the
couplings resume at position 15. -/
theorem composer_barrier_misplacement :
    countBarriers (qc_ops 2 2 2 2 () () () ()) = 7 ∧
    (qc_ops 2 2 2 2 () () () ()).get? 9 = some (Op.p () 4) ∧
    (qc_ops 2 2 2 2 () () () ()).get? 10 = some (Op.p () 5) ∧
    (qc_ops 2 2 2 2 () () () ()).get? 11 = some (Op.crz () 2 4) ∧
    (qc_ops 2 2 2 2 () () () ()).get? 13 = some (Op.x 7) ∧
    (qc_ops 2 2 2 2 () () () ()).get? 14 =
      some (Op.barrier (some "V_TPP_Proclamation_1")) ∧
    (qc_ops 2 2 2 2 () () () ()).get? 15 = some (Op.cx 2 6) := by decide

/-- Claim C5 as amended: the emitted sequence contains exactly 7 barriers
regardless of register widths, delimiting the stages as the code emits
them: after the Phase superposition, after the Phase-to-Existence
coupling, after the Existence-to-Resource coupling, after the energy
coupling (the golden-ratio rotations share this barrier with the energy
coupling; no barrier separates the two), after the initial Value basis
flip (inside the proclamation block), after the remainder of the
proclamation block, and after the conditional exchange; every block
between consecutive barriers is barrier-free. -/
theorem composer_barrier_staging (pq eq rq vq : Nat)
    (phiAngle mcAngle noMeadAngle densityAngle : A) :
    countBarriers (qc_ops pq eq rq vq phiAngle mcAngle noMeadAngle densityAngle) = 7 ∧
    qc_ops pq eq rq vq phiAngle mcAngle noMeadAngle densityAngle =
      ((List.range' P_START pq).map Op.h) ++
      [Op.barrier (some "P_Infinite_Phases")] ++
      [Op.cx P_START (E_START pq), Op.cx (P_START + 1) (E_START pq + 1)] ++
      [Op.barrier (some "E_Existence_Entanglement")] ++
      [Op.cx (E_START pq) (R_START pq eq), Op.cx (E_START pq + 1) (R_START pq eq + 1)] ++
      [Op.barrier (some "R_Equaddle_Enforcement")] ++
      [Op.p phiAngle (R_START pq eq), Op.p phiAngle (R_START pq eq + 1),
       Op.crz mcAngle (E_START pq) (R_START pq eq)] ++
      [Op.barrier (some "Hyperdimensional_Energy_Layer")] ++
      [Op.x (V_START pq eq rq + 1)] ++
      [Op.barrier (some "V_TPP_Proclamation_1")] ++
      [Op.cx (E_START pq) (V_START pq eq rq),
       Op.cx (E_START pq + 1) (V_START pq eq rq + 1),
       Op.rx noMeadAngle (V_START pq eq rq),
       Op.rz densityAngle (V_START pq eq rq + 1)] ++
      [Op.barrier none] ++
      [Op.cswap (V_START pq eq rq) (R_START pq eq) (R_START pq eq + 1)] ++
      [Op.barrier (some "R_Value_Exchange_Final")] ∧
    countBarriers ((List.range' P_START pq).map (Op.h (A := A))) = 0 := by
  refine ⟨?_, ?_, ?_⟩
  · simp [qc_ops, countBarriers, List.filter_append, filter_isBarrier_map_h,
      List.filter_cons, isBarrier]
  · simp [qc_ops, List.append_assoc]
  · simp [countBarriers, filter_isBarrier_map_h]

/-- Counterexample to claim C6: the width configuration (1,1,1,1) passes
the claimed validation (all positive, all equal), yet the produced
sequence references bit index 4 — the basis flip on `V_START + 1` —
while the total register size is 4, so the index lies outside
[0, total_register_size) and the defensive out-of-range condition is
reachable for validated widths. -/
theorem composer_width_one_out_of_range :
    TOTAL_QUBITS 1 1 1 1 = 4 ∧
    V_START 1 1 1 + 1 = 4 ∧
    Op.x (V_START 1 1 1 + 1) ∈ qc_ops 1 1 1 1 () () () () ∧
    allIndicesLt (qc_ops 1 1 1 1 () () () ()) (TOTAL_QUBITS 1 1 1 1) = false := by
  decide

/-- Claim C6 as amended: for equal positive register widths of at least 2
— which includes the source configuration (2,2,2,2) — every bit index
referenced by any operation of the produced sequence lies in
[0, total_register_size). -/
theorem composer_indices_in_range (pq eq rq vq : Nat)
    (phiAngle mcAngle noMeadAngle densityAngle : A)
    (hpe : pq = eq) (her : eq = rq) (hrv : rq = vq) (h2 : 2 ≤ pq) :
    allIndicesLt (qc_ops pq eq rq vq phiAngle mcAngle noMeadAngle densityAngle)
      (TOTAL_QUBITS pq eq rq vq) = true := by
  subst hpe her hrv
  simp only [allIndicesLt, List.all_eq_true, decide_eq_true_iff]
  intro op hop
  simp only [qc_ops, List.mem_append, List.mem_map, List.mem_cons,
    List.not_mem_nil, or_false] at hop
  rcases hop with ⟨j, hj, rfl⟩ | hop
  · simp only [opIndices, List.mem_cons, List.not_mem_nil, or_false,
      forall_eq, TOTAL_QUBITS]
    simp only [List.mem_range'_1, P_START] at hj
    omega
  · rcases hop with rfl | rfl | rfl | rfl | rfl | rfl | rfl | rfl | rfl | rfl |
      rfl | rfl | rfl | rfl | rfl | rfl | rfl | rfl | rfl | rfl <;>
    simp only [opIndices, List.mem_cons, List.not_mem_nil, or_false,
      forall_eq_or_imp, forall_eq, false_implies, implies_true, forall_const,
      TOTAL_QUBITS, V_START, R_START, E_START, P_START] <;>
    omega

/-- Closed instance of the amended claim C6 at the source widths
(2,2,2,2): all referenced indices are below the total register size 8. -/
theorem composer_indices_in_range_witness :
    allIndicesLt (qc_ops 2 2 2 2 () () () ()) (TOTAL_QUBITS 2 2 2 2) = true :=
  composer_indices_in_range 2 2 2 2 () () () () rfl rfl rfl (by decide)

/-- Claim C7 (confirmed): the composer has no source of nondeterminism —
two invocations on identical widths and identical physical constants
produce identical ordered operation sequences. -/
theorem composer_deterministic (pq eq rq vq pq' eq' rq' vq' : Nat)
    (a b c d a' b' c' d' : A)
    (h1 : pq = pq') (h2 : eq = eq') (h3 : rq = rq') (h4 : vq = vq')
    (h5 : a = a') (h6 : b = b') (h7 : c = c') (h8 : d = d') :
    qc_ops pq eq rq vq a b c d = qc_ops pq' eq' rq' vq' a' b' c' d' := by
  subst h1 h2 h3 h4 h5 h6 h7 h8
  rfl

/-- Closed instance of claim C7 at the source widths and four concrete
rational angle values. -/
theorem composer_deterministic_witness :
    qc_ops 2 2 2 2 (1 : Rat) 2 3 4 = qc_ops 2 2 2 2 (1 : Rat) 2 3 4 :=
  composer_deterministic 2 2 2 2 2 2 2 2 1 2 3 4 1 2 3 4
    rfl rfl rfl rfl rfl rfl rfl rfl

/-- Claim C8 (confirmed): the sequence contains exactly one
controlled-phase-rotation coupling; its control is the first Existence
bit, its target the first Resource bit, and its angle the energy constant
(the MASS_CONSTANT argument); no other Existence/Resource pair gets one. -/
theorem composer_single_energy_coupling (pq eq rq vq : Nat)
    (phiAngle mcAngle noMeadAngle densityAngle : A) :
    crzOps (qc_ops pq eq rq vq phiAngle mcAngle noMeadAngle densityAngle) =
      [(mcAngle, E_START pq, R_START pq eq)] := by
  simp [crzOps, qc_ops, List.filterMap_append, crzOf_filterMap_map_h,
    List.filterMap_cons, crzOf]

/-- Claim C9 (confirmed): the four register groups partition the bit
array — each start offset is the sum of the preceding widths, the groups
are contiguous intervals whose union is [0, TOTAL_QUBITS), and they are
pairwise disjoint. -/
theorem register_layout_partition (pq eq rq vq : Nat) :
    P_START = 0 ∧
    E_START pq = P_START + pq ∧
    R_START pq eq = E_START pq + eq ∧
    V_START pq eq rq = R_START pq eq + rq ∧
    V_START pq eq rq + vq = TOTAL_QUBITS pq eq rq vq ∧
    Finset.Ico P_START (E_START pq) ∪ Finset.Ico (E_START pq) (R_START pq eq) ∪
      Finset.Ico (R_START pq eq) (V_START pq eq rq) ∪
      Finset.Ico (V_START pq eq rq) (TOTAL_QUBITS pq eq rq vq) =
      Finset.range (TOTAL_QUBITS pq eq rq vq) ∧
    Disjoint (Finset.Ico P_START (E_START pq))
      (Finset.Ico (E_START pq) (R_START pq eq)) ∧
    Disjoint (Finset.Ico P_START (E_START pq))
      (Finset.Ico (R_START pq eq) (V_START pq eq rq)) ∧
    Disjoint (Finset.Ico P_START (E_START pq))
      (Finset.Ico (V_START pq eq rq) (TOTAL_QUBITS pq eq rq vq)) ∧
    Disjoint (Finset.Ico (E_START pq) (R_START pq eq))
      (Finset.Ico (R_START pq eq) (V_START pq eq rq)) ∧
    Disjoint (Finset.Ico (E_START pq) (R_START pq eq))
      (Finset.Ico (V_START pq eq rq) (TOTAL_QUBITS pq eq rq vq)) ∧
    Disjoint (Finset.Ico (R_START pq eq) (V_START pq eq rq))
      (Finset.Ico (V_START pq eq rq) (TOTAL_QUBITS pq eq rq vq)) := by
  refine ⟨rfl, rfl, rfl, rfl, ?_, ?_, ?_, ?_, ?_, ?_, ?_, ?_⟩
  · simp only [V_START, R_START, E_START, P_START, TOTAL_QUBITS]
    omega
  · ext i
    simp only [Finset.mem_union, Finset.mem_Ico, Finset.mem_range,
      V_START, R_START, E_START, P_START, TOTAL_QUBITS]
    omega
  all_goals
    rw [Finset.disjoint_left]
    intro a ha hb
    simp only [Finset.mem_Ico, V_START, R_START, E_START, P_START,
      TOTAL_QUBITS] at ha hb
    omega

end Equaddle
